import Mathlib

/-!
Shallow embedding of the taskflow task/project/iteration core
(`src/taskflow/models.py`, `src/taskflow/storage.py`, `src/taskflow/manager.py`).

Conventions of the embedding:
* Python wall-clock timestamps (`datetime.now(...).strftime(...)`) are an
  abstract `now : String` parameter threaded into every operation that stamps
  a time.
* The flat-file store is a `Storage` record of association lists keyed the way
  the storage layer locates files: projects by name (`{project}/project.json`),
  tasks by `(project, id)` (the `{id}-*.yaml` prefix scan), iterations by
  `(project, task_id, number)` (the `{task_id}.iter{NNN}.yaml` scheme).
* Exceptions are modelled with `Except`: an operation that raises returns
  `.error e` and, since every manager operation below raises before its first
  file write, an error result means the store is unchanged.
* Python `dict` payloads of `to_dict`/`from_dict` are association lists of
  string keys to a `Value`; `from_dict` reads each key at its expected type
  and fails (`none`) where the Python code would raise.
-/

namespace Taskflow

/-- `TaskStatus` enum of models.py. -/
inductive TaskStatus
  | TODO
  | IN_PROGRESS
  | DONE
  | ARCHIVED
deriving DecidableEq, Repr

/-- `ProjectStatus` enum of models.py. -/
inductive ProjectStatus
  | ACTIVE
  | COMPLETED
  | ARCHIVED
deriving DecidableEq, Repr

/-- `IterationStatus` enum of models.py. -/
inductive IterationStatus
  | IN_PROGRESS
  | COMPLETED
  | PAUSED
deriving DecidableEq, Repr

/-- `.value` of a `TaskStatus` member. -/
def TaskStatus.value : TaskStatus → String
  | .TODO => "TODO"
  | .IN_PROGRESS => "IN_PROGRESS"
  | .DONE => "DONE"
  | .ARCHIVED => "ARCHIVED"

/-- `TaskStatus(s)` construction: `some` member on a legal value, `none` where
Python raises `ValueError`. -/
def TaskStatus.ofString? (s : String) : Option TaskStatus :=
  if s = "TODO" then some .TODO
  else if s = "IN_PROGRESS" then some .IN_PROGRESS
  else if s = "DONE" then some .DONE
  else if s = "ARCHIVED" then some .ARCHIVED
  else none

/-- `.value` of a `ProjectStatus` member. -/
def ProjectStatus.value : ProjectStatus → String
  | .ACTIVE => "active"
  | .COMPLETED => "completed"
  | .ARCHIVED => "archived"

/-- `ProjectStatus(s)` construction. -/
def ProjectStatus.ofString? (s : String) : Option ProjectStatus :=
  if s = "active" then some .ACTIVE
  else if s = "completed" then some .COMPLETED
  else if s = "archived" then some .ARCHIVED
  else none

/-- `.value` of an `IterationStatus` member. -/
def IterationStatus.value : IterationStatus → String
  | .IN_PROGRESS => "in_progress"
  | .COMPLETED => "completed"
  | .PAUSED => "paused"

/-- `IterationStatus(s)` construction. -/
def IterationStatus.ofString? (s : String) : Option IterationStatus :=
  if s = "in_progress" then some .IN_PROGRESS
  else if s = "completed" then some .COMPLETED
  else if s = "paused" then some .PAUSED
  else none

/-- The Python repr of `[s.value for s in TaskStatus]`, interpolated into the
validation-error message of `TaskManager.set_task_status`. -/
def taskStatusValuesRepr : String :=
  "['TODO', 'IN_PROGRESS', 'DONE', 'ARCHIVED']"

/-- `Task` dataclass of models.py.  `created` is `Optional[str]` in the
dataclass; `__post_init__` replaces a `None` with the current time, which the
construction sites below perform explicitly with their `now` argument. -/
structure Task where
  id : String
  title : String
  project : String
  description : String := ""
  notes : String := ""
  status : TaskStatus := .TODO
  created : Option String := none
  started : Option String := none
  completed : Option String := none
  current_iteration : Nat := 0
  total_iterations : Nat := 0
deriving DecidableEq, Repr

/-- `Task.start_work`: transition TODO → IN_PROGRESS stamping `started`;
no-op on any other status. -/
def Task.start_work (t : Task) (now : String) : Task :=
  if t.status = TaskStatus.TODO then
    { t with status := TaskStatus.IN_PROGRESS, started := some now }
  else t

/-- `Task.complete_work`: transition IN_PROGRESS → DONE stamping `completed`;
no-op on any other status. -/
def Task.complete_work (t : Task) (now : String) : Task :=
  if t.status = TaskStatus.IN_PROGRESS then
    { t with status := TaskStatus.DONE, completed := some now }
  else t

/-- `Iteration` dataclass of models.py; `started` is stamped by
`__post_init__` at construction, performed explicitly by `start_task`. -/
structure Iteration where
  task_id : String
  iteration : Nat
  status : IterationStatus := .IN_PROGRESS
  started : Option String := none
  completed : Option String := none
  notes : String := ""
  summary : String := ""
  user_feedback : String := ""
  next_steps : String := ""
deriving DecidableEq, Repr

/-- `Iteration.complete`: unconditionally set status to completed and stamp
`completed`. -/
def Iteration.complete (it : Iteration) (now : String) : Iteration :=
  { it with status := IterationStatus.COMPLETED, completed := some now }

/-- `Iteration.add_note`: append with a newline separator when notes are
nonempty, else set directly. -/
def Iteration.add_note (it : Iteration) (note : String) : Iteration :=
  if it.notes ≠ "" then { it with notes := it.notes ++ "\n" ++ note }
  else { it with notes := note }

/-- `Project` dataclass of models.py. -/
structure Project where
  name : String
  description : String := ""
  status : ProjectStatus := .ACTIVE
  created : Option String := none
  next_task_id : Nat := 1
  total_tasks : Nat := 0
  completed_tasks : Nat := 0
deriving DecidableEq, Repr

/-- `Project.mark_task_completed`: increment the completed-tasks counter. -/
def Project.mark_task_completed (p : Project) : Project :=
  { p with completed_tasks := p.completed_tasks + 1 }

/-- One decimal digit as its ASCII character. -/
def digitChar (d : Nat) : Char := Char.ofNat (48 + d)

/-- Decimal digit characters of `n`, most significant first, computed with
explicit fuel so the kernel can evaluate it (`fuel = n + 1` always suffices). -/
def natToChars : Nat → Nat → List Char
  | 0, _ => []
  | fuel + 1, n =>
    if n < 10 then [digitChar n]
    else natToChars fuel (n / 10) ++ [digitChar (n % 10)]

/-- Python `f"{n:03d}"`: the decimal digits of `n` left-padded with `'0'` to at
least three characters. -/
def formatTaskId (n : Nat) : String :=
  let ds := natToChars (n + 1) n
  String.mk (List.replicate (3 - ds.length) '0' ++ ds)

/-- `Project.get_next_task_id`: the zero-padded current counter, together with
the project after incrementing `next_task_id` and `total_tasks`. -/
def Project.get_next_task_id (p : Project) : String × Project :=
  (formatTaskId p.next_task_id,
   { p with next_task_id := p.next_task_id + 1, total_tasks := p.total_tasks + 1 })

/-! ### Dictionary serialization (`to_dict` / `from_dict`) -/

/-- A Python value occurring in a serialized entity dictionary. -/
inductive Value
  | vStr (s : String)
  | vNat (n : Nat)
  | vNull
deriving DecidableEq, Repr

/-- A Python `dict` payload: string keys to values. -/
abbrev Dict := List (String × Value)

/-- `d[k]` lookup returning `none` when the key is absent. -/
def dget (d : Dict) (k : String) : Option Value :=
  (d.find? fun e => decide (e.1 = k)).map Prod.snd

/-- `data[k]` read of a required string field: `none` models `KeyError` on a
missing key, and a non-string value (which would corrupt the typed record). -/
def reqStr (d : Dict) (k : String) : Option String :=
  match dget d k with
  | some (Value.vStr s) => some s
  | _ => none

/-- `data.get(k, dflt)` read of a string field with a string default. -/
def getStrD (d : Dict) (k : String) (dflt : String) : Option String :=
  match dget d k with
  | none => some dflt
  | some (Value.vStr s) => some s
  | _ => none

/-- `data.get(k)` read of a nullable string field: both an absent key and an
explicit null produce `none`. -/
def getOptStr (d : Dict) (k : String) : Option (Option String) :=
  match dget d k with
  | none => some none
  | some Value.vNull => some none
  | some (Value.vStr s) => some (some s)
  | _ => none

/-- `data.get(k, dflt)` read of a numeric field. -/
def getNatD (d : Dict) (k : String) (dflt : Nat) : Option Nat :=
  match dget d k with
  | none => some dflt
  | some (Value.vNat n) => some n
  | _ => none

/-- `data[k]` read of a required numeric field. -/
def reqNat (d : Dict) (k : String) : Option Nat :=
  match dget d k with
  | some (Value.vNat n) => some n
  | _ => none

/-- An optional string serialized: `None` becomes null, a string stays. -/
def optVal : Option String → Value
  | none => Value.vNull
  | some s => Value.vStr s

/-- `Task.to_dict`, keys in source order. -/
def Task.to_dict (t : Task) : Dict :=
  [("id", Value.vStr t.id),
   ("title", Value.vStr t.title),
   ("status", Value.vStr t.status.value),
   ("created", optVal t.created),
   ("started", optVal t.started),
   ("completed", optVal t.completed),
   ("project", Value.vStr t.project),
   ("description", Value.vStr t.description),
   ("notes", Value.vStr t.notes),
   ("current_iteration", Value.vNat t.current_iteration),
   ("total_iterations", Value.vNat t.total_iterations)]

/-- `Task.from_dict` followed by `__post_init__`: the status string (default
`"TODO"`) is parsed, required keys must be present, and a missing or null
`created` is replaced by the current time `now`. -/
def Task.from_dict (d : Dict) (now : String) : Option Task := do
  let statusStr ← getStrD d "status" "TODO"
  let status ← TaskStatus.ofString? statusStr
  let id ← reqStr d "id"
  let title ← reqStr d "title"
  let project ← reqStr d "project"
  let description ← getStrD d "description" ""
  let notes ← getStrD d "notes" ""
  let created ← getOptStr d "created"
  let started ← getOptStr d "started"
  let completed ← getOptStr d "completed"
  let current_iteration ← getNatD d "current_iteration" 0
  let total_iterations ← getNatD d "total_iterations" 0
  some { id := id, title := title, project := project, description := description,
         notes := notes, status := status, created := some (created.getD now),
         started := started, completed := completed,
         current_iteration := current_iteration, total_iterations := total_iterations }

/-- `Iteration.to_dict`, keys in source order. -/
def Iteration.to_dict (it : Iteration) : Dict :=
  [("task_id", Value.vStr it.task_id),
   ("iteration", Value.vNat it.iteration),
   ("started", optVal it.started),
   ("completed", optVal it.completed),
   ("status", Value.vStr it.status.value),
   ("notes", Value.vStr it.notes),
   ("summary", Value.vStr it.summary),
   ("user_feedback", Value.vStr it.user_feedback),
   ("next_steps", Value.vStr it.next_steps)]

/-- `Iteration.from_dict` followed by `__post_init__` (a missing or null
`started` is replaced by `now`). -/
def Iteration.from_dict (d : Dict) (now : String) : Option Iteration := do
  let statusStr ← getStrD d "status" "in_progress"
  let status ← IterationStatus.ofString? statusStr
  let task_id ← reqStr d "task_id"
  let iteration ← reqNat d "iteration"
  let started ← getOptStr d "started"
  let completed ← getOptStr d "completed"
  let notes ← getStrD d "notes" ""
  let summary ← getStrD d "summary" ""
  let user_feedback ← getStrD d "user_feedback" ""
  let next_steps ← getStrD d "next_steps" ""
  some { task_id := task_id, iteration := iteration, status := status,
         started := some (started.getD now), completed := completed,
         notes := notes, summary := summary, user_feedback := user_feedback,
         next_steps := next_steps }

/-- `Project.to_dict`, keys in source order. -/
def Project.to_dict (p : Project) : Dict :=
  [("name", Value.vStr p.name),
   ("created", optVal p.created),
   ("status", Value.vStr p.status.value),
   ("description", Value.vStr p.description),
   ("next_task_id", Value.vNat p.next_task_id),
   ("total_tasks", Value.vNat p.total_tasks),
   ("completed_tasks", Value.vNat p.completed_tasks)]

/-- `Project.from_dict` followed by `__post_init__` (a missing or null
`created` is replaced by `now`). -/
def Project.from_dict (d : Dict) (now : String) : Option Project := do
  let statusStr ← getStrD d "status" "active"
  let status ← ProjectStatus.ofString? statusStr
  let name ← reqStr d "name"
  let description ← getStrD d "description" ""
  let created ← getOptStr d "created"
  let next_task_id ← getNatD d "next_task_id" 1
  let total_tasks ← getNatD d "total_tasks" 0
  let completed_tasks ← getNatD d "completed_tasks" 0
  some { name := name, description := description, status := status,
         created := some (created.getD now), next_task_id := next_task_id,
         total_tasks := total_tasks, completed_tasks := completed_tasks }

/-! ### Storage layer (`storage.py`) -/

/-- Association-list lookup by key. -/
def alistGet {α β : Type} [DecidableEq α] (l : List (α × β)) (k : α) : Option β :=
  (l.find? fun e => decide (e.1 = k)).map Prod.snd

/-- Association-list overwrite: the new binding shadows and removes any
binding of the same key (a file write replaces the file of that name). -/
def alistPut {α β : Type} [DecidableEq α] (l : List (α × β)) (k : α) (v : β) :
    List (α × β) :=
  (k, v) :: l.filter fun e => decide (¬ e.1 = k)

/-- The flat-file store: projects keyed by name (`{project}/project.json`),
tasks keyed by `(project, id)` (the `{id}-*.yaml` prefix scan), iterations
keyed by `(project, task_id, number)` (`{task_id}.iter{NNN}.yaml`). -/
structure Storage where
  projects : List (String × Project) := []
  tasks : List ((String × String) × Task) := []
  iterations : List ((String × String × Nat) × Iteration) := []
deriving DecidableEq, Repr

namespace TaskStorage

/-- `TaskStorage.save_project`: write `project.json` under the project's own
name. -/
def save_project (s : Storage) (p : Project) : Storage :=
  { s with projects := alistPut s.projects p.name p }

/-- `TaskStorage.load_project`. -/
def load_project (s : Storage) (name : String) : Option Project :=
  alistGet s.projects name

/-- `TaskStorage.project_exists`: a readable `project.json` is present. -/
def project_exists (s : Storage) (name : String) : Bool :=
  (load_project s name).isSome

/-- `TaskStorage.save_task`: the file is placed under the task's own
`project` field and located by its `id`. -/
def save_task (s : Storage) (t : Task) : Storage :=
  { s with tasks := alistPut s.tasks (t.project, t.id) t }

/-- `TaskStorage.load_task`: locate the task file by ID under the project. -/
def load_task (s : Storage) (project_name task_id : String) : Option Task :=
  alistGet s.tasks (project_name, task_id)

/-- `TaskStorage.save_iteration`: the file name embeds the iteration's own
`task_id` and `iteration` number, under the given project. -/
def save_iteration (s : Storage) (it : Iteration) (project_name : String) : Storage :=
  { s with iterations := alistPut s.iterations (project_name, it.task_id, it.iteration) it }

/-- `TaskStorage.load_iteration`. -/
def load_iteration (s : Storage) (project_name task_id : String) (n : Nat) :
    Option Iteration :=
  alistGet s.iterations (project_name, task_id, n)

/-- The raw iteration numbers persisted for a task: the numeric suffix of
every `{task_id}.iter*.yaml` file under the project, in file-system order. -/
def rawIters (s : Storage) (project_name task_id : String) : List Nat :=
  s.iterations.filterMap fun e =>
    if e.1.1 = project_name ∧ e.1.2.1 = task_id then some e.1.2.2 else none

/-- `TaskStorage.list_iterations`: the persisted iteration numbers, sorted
ascending (Python `sorted`, embedded as a stable insertion sort). -/
def list_iterations (s : Storage) (project_name task_id : String) : List Nat :=
  (rawIters s project_name task_id).insertionSort (· ≤ ·)

/-- Python `max` over a (nonempty) list of naturals. -/
def listMax (l : List Nat) : Nat := l.foldl Nat.max 0

/-- `TaskStorage.get_next_iteration_number`: 1 when no iterations exist, else
one past the maximum. -/
def get_next_iteration_number (s : Storage) (project_name task_id : String) : Nat :=
  let existing := list_iterations s project_name task_id
  if existing.isEmpty then 1 else listMax existing + 1

/-- `TaskStorage.get_current_iteration`: load the iteration at the maximum
persisted number; `none` when no iterations exist. -/
def get_current_iteration (s : Storage) (project_name task_id : String) :
    Option Iteration :=
  let iterations := list_iterations s project_name task_id
  if iterations.isEmpty then none
  else load_iteration s project_name task_id (listMax iterations)

end TaskStorage

/-! ### Manager (`manager.py`) -/

/-- The manager error taxonomy: `TaskManagerError` and its three lookup
subclasses, each carrying the formatted message. -/
inductive TMError
  | taskManagerError (msg : String)
  | projectNotFound (msg : String)
  | taskNotFound (msg : String)
  | iterationNotFound (msg : String)
deriving DecidableEq, Repr

namespace TaskManager

/-- `TaskManager.get_project`. -/
def get_project (s : Storage) (name : String) : Except TMError Project :=
  match TaskStorage.load_project s name with
  | some p => .ok p
  | none => .error (.projectNotFound ("Project '" ++ name ++ "' not found"))

/-- `TaskManager.create_project`. -/
def create_project (s : Storage) (name description now : String) :
    Except TMError (Storage × Project) :=
  if TaskStorage.project_exists s name then
    .error (.taskManagerError ("Project '" ++ name ++ "' already exists"))
  else
    let project : Project := { name := name, description := description, created := some now }
    .ok (TaskStorage.save_project s project, project)

/-- `TaskManager.get_task`: project existence is checked first, then the task
file is located. -/
def get_task (s : Storage) (project_name task_id : String) : Except TMError Task :=
  if TaskStorage.project_exists s project_name then
    match TaskStorage.load_task s project_name task_id with
    | some t => .ok t
    | none => .error (.taskNotFound
        ("Task '" ++ task_id ++ "' not found in project '" ++ project_name ++ "'"))
  else .error (.projectNotFound ("Project '" ++ project_name ++ "' not found"))

/-- `TaskManager.create_task`: allocate the next ID from the project (saving
the updated counters), then create and save the TODO task. -/
def create_task (s : Storage) (project_name title description notes now : String) :
    Except TMError (Storage × Task) :=
  match get_project s project_name with
  | .error e => .error e
  | .ok project =>
    let r := project.get_next_task_id
    let s := TaskStorage.save_project s r.2
    let task : Task := { id := r.1, title := title, project := project_name,
                         description := description, notes := notes, created := some now }
    .ok (TaskStorage.save_task s task, task)

/-- `TaskManager.set_task_status`: parse the status string, dispatch the
transition, and save the task (the DONE branch also bumps and saves the
project's completed-tasks counter before the task write). -/
def set_task_status (s : Storage) (project_name task_id status now : String) :
    Except TMError Storage :=
  match get_task s project_name task_id with
  | .error e => .error e
  | .ok task =>
    match TaskStatus.ofString? status with
    | none => .error (.taskManagerError
        ("Invalid status '" ++ status ++ "'. Valid options: " ++ taskStatusValuesRepr))
    | some new_status =>
      if new_status = TaskStatus.IN_PROGRESS ∧ task.started = none then
        .ok (TaskStorage.save_task s (task.start_work now))
      else if new_status = TaskStatus.DONE ∧ task.completed = none then
        match get_project s project_name with
        | .error e => .error e
        | .ok project =>
          let s := TaskStorage.save_project s project.mark_task_completed
          .ok (TaskStorage.save_task s (task.complete_work now))
      else
        .ok (TaskStorage.save_task s { task with status := new_status })

/-- `TaskManager.start_task`: start the task if TODO, allocate the next
iteration number, update the task's iteration counters, save both. -/
def start_task (s : Storage) (project_name task_id now : String) :
    Except TMError (Storage × Iteration) := do
  let task ← get_task s project_name task_id
  let (task, s) :=
    if task.status = TaskStatus.TODO then
      let task := task.start_work now
      (task, TaskStorage.save_task s task)
    else (task, s)
  let iteration_num := TaskStorage.get_next_iteration_number s project_name task_id
  let iteration : Iteration := { task_id := task_id, iteration := iteration_num,
                                 started := some now }
  let task := { task with current_iteration := iteration_num,
                          total_iterations := max task.total_iterations iteration_num }
  let s := TaskStorage.save_task s task
  return (TaskStorage.save_iteration s iteration project_name, iteration)

/-- The first half of `complete_task`: complete the current iteration when
one exists and is not already completed, and persist it. -/
def complete_task_iter_step (s : Storage) (project_name task_id now : String) : Storage :=
  match TaskStorage.get_current_iteration s project_name task_id with
  | some current_iter =>
    if current_iter.status ≠ IterationStatus.COMPLETED then
      TaskStorage.save_iteration s (current_iter.complete now) project_name
    else s
  | none => s

/-- `TaskManager.complete_task`: complete the current iteration when one
exists and is not already completed; then, unless the task is already DONE,
complete the task and bump the project's completed-tasks counter. -/
def complete_task (s : Storage) (project_name task_id now : String) :
    Except TMError Storage :=
  match get_task s project_name task_id with
  | .error e => .error e
  | .ok task =>
    let s := complete_task_iter_step s project_name task_id now
    if task.status ≠ TaskStatus.DONE then
      let s := TaskStorage.save_task s (task.complete_work now)
      match get_project s project_name with
      | .error e => .error e
      | .ok project => .ok (TaskStorage.save_project s project.mark_task_completed)
    else
      .ok s

/-- The shared shape of the five current-iteration operations: look up the
current iteration, raise `IterationNotFoundError` when none exists, else
apply `f` and save. -/
def withCurrentIteration (s : Storage) (project_name task_id : String)
    (f : Iteration → Iteration) : Except TMError Storage :=
  match TaskStorage.get_current_iteration s project_name task_id with
  | none => .error (.iterationNotFound
      ("No active iteration found for task '" ++ task_id ++ "'"))
  | some current_iter =>
    .ok (TaskStorage.save_iteration s (f current_iter) project_name)

/-- `TaskManager.add_iteration_note`. -/
def add_iteration_note (s : Storage) (project_name task_id note : String) :
    Except TMError Storage :=
  withCurrentIteration s project_name task_id fun it => it.add_note note

/-- `TaskManager.set_iteration_summary`. -/
def set_iteration_summary (s : Storage) (project_name task_id summary : String) :
    Except TMError Storage :=
  withCurrentIteration s project_name task_id fun it => { it with summary := summary }

/-- `TaskManager.add_user_feedback`. -/
def add_user_feedback (s : Storage) (project_name task_id feedback : String) :
    Except TMError Storage :=
  withCurrentIteration s project_name task_id fun it => { it with user_feedback := feedback }

/-- `TaskManager.set_next_steps`. -/
def set_next_steps (s : Storage) (project_name task_id next_steps : String) :
    Except TMError Storage :=
  withCurrentIteration s project_name task_id fun it => { it with next_steps := next_steps }

/-- `TaskManager.complete_iteration`. -/
def complete_iteration (s : Storage) (project_name task_id now : String) :
    Except TMError Storage :=
  withCurrentIteration s project_name task_id fun it => it.complete now

end TaskManager

/-- `MCPServer._delete_task`: unlink the task file(s) with the `{id}-` prefix
and every `{id}.iter*.yaml` iteration file; `project.json` is untouched. -/
def delete_task_files (s : Storage) (project_name task_id : String) : Storage :=
  { s with
    tasks := s.tasks.filter fun e => decide (¬ (e.1.1 = project_name ∧ e.1.2 = task_id)),
    iterations := s.iterations.filter fun e => decide (¬ (e.1.1 = project_name ∧ e.1.2.1 = task_id)) }

/-- An operation of a create/delete interleaving on one project. -/
inductive TFOp
  | createTask (title description notes now : String)
  | deleteTask (task_id : String)

/-- Count of `createTask` operations in a sequence. -/
def countCreates : List TFOp → Nat
  | [] => 0
  | TFOp.createTask _ _ _ _ :: rest => countCreates rest + 1
  | TFOp.deleteTask _ :: rest => countCreates rest

/-- Run a create/delete sequence against one project, collecting the IDs
returned by the successful `create_task` calls (a raised error, impossible
while the project file exists, stops the run). -/
def runOps (s : Storage) (project_name : String) : List TFOp → Storage × List String
  | [] => (s, [])
  | TFOp.createTask title description notes now :: rest =>
    match TaskManager.create_task s project_name title description notes now with
    | .ok r =>
      let res := runOps r.1 project_name rest
      (res.1, r.2.id :: res.2)
    | .error _ => (s, [])
  | TFOp.deleteTask task_id :: rest =>
    runOps (delete_task_files s project_name task_id) project_name rest

/-! ### Decimal reading, inverse to `formatTaskId` -/

/-- Read a digit string back as a number (Horner evaluation). -/
def readNat (cs : List Char) : Nat :=
  cs.foldl (fun acc c => acc * 10 + (c.toNat - 48)) 0

/-! ### Concrete stores used in witnesses and counterexamples -/

/-- The `demo` project after one task-ID allocation. -/
def demoProject1 : Project :=
  { name := "demo", created := some "t0", next_task_id := 2, total_tasks := 1 }

/-- Task `001`, still TODO. -/
def todoTask : Task :=
  { id := "001", title := "fix parser bug", project := "demo", created := some "t0" }

/-- Store holding project `demo` and the TODO task `001`, no iterations. -/
def todoStorage : Storage :=
  { projects := [("demo", demoProject1)], tasks := [(("demo", "001"), todoTask)] }

/-- Task `001`, started (IN_PROGRESS with a `started` stamp). -/
def ipTask : Task :=
  { id := "001", title := "fix parser bug", project := "demo",
    status := .IN_PROGRESS, created := some "t0", started := some "t0" }

/-- Iteration 1 of task `001`, still open. -/
def ipIter : Iteration :=
  { task_id := "001", iteration := 1, started := some "t0" }

/-- Store with the IN_PROGRESS task `001` and its open iteration 1. -/
def ipStorage : Storage :=
  { projects := [("demo", demoProject1)], tasks := [(("demo", "001"), ipTask)],
    iterations := [(("demo", "001", 1), ipIter)] }

/-- A task completed once and then reopened: IN_PROGRESS with a non-null
`completed` timestamp. -/
def reopenedTask : Task :=
  { id := "001", title := "fix parser bug", project := "demo",
    status := .IN_PROGRESS, created := some "t0", started := some "t0",
    completed := some "t1" }

/-- Store holding the reopened task `001`. -/
def reopenedStorage : Storage :=
  { projects := [("demo", demoProject1)], tasks := [(("demo", "001"), reopenedTask)] }

/-- Iterations 1, 2, 3 of task `001`: the first two completed, 3 open. -/
def iterOne : Iteration :=
  { task_id := "001", iteration := 1, status := .COMPLETED,
    started := some "t0", completed := some "t1" }

/-- Second iteration of task `001`, completed. -/
def iterTwo : Iteration :=
  { task_id := "001", iteration := 2, status := .COMPLETED,
    started := some "t1", completed := some "t2" }

/-- Third iteration of task `001`, open. -/
def iterThree : Iteration :=
  { task_id := "001", iteration := 3, started := some "t2" }

/-- Store after starting iterations 1, 2, 3 of task `001`. -/
def threeIterStorage : Storage :=
  { projects := [("demo", demoProject1)], tasks := [(("demo", "001"), ipTask)],
    iterations := [(("demo", "001", 1), iterOne), (("demo", "001", 2), iterTwo),
                   (("demo", "001", 3), iterThree)] }

/-- A fresh `demo` project: counters at their creation defaults. -/
def freshProject : Project := { name := "demo", created := some "t0" }

/-- Store holding only the fresh `demo` project. -/
def freshStorage : Storage := { projects := [("demo", freshProject)] }

/-- Two task creations with a deletion of the first task in between. -/
def demoOps : List TFOp :=
  [TFOp.createTask "alpha" "" "" "t1", TFOp.deleteTask "001",
   TFOp.createTask "beta" "" "" "t2"]

/-- An iteration value exercising null and non-null optional fields. -/
def wIter : Iteration :=
  { task_id := "001", iteration := 2, status := .PAUSED, started := some "t1",
    completed := none, notes := "x\ny", summary := "looked at parser",
    user_feedback := "", next_steps := "rerun" }

/-! ### Association-list and list-maximum lemmas -/

theorem alistGet_put_self {α β : Type} [DecidableEq α] (l : List (α × β)) (k : α) (v : β) :
    alistGet (alistPut l k v) k = some v := by
  simp [alistGet, alistPut, List.find?_cons]

theorem le_foldl_max (l : List Nat) : ∀ a : Nat, a ≤ l.foldl Nat.max a := by
  induction l with
  | nil => intro a; simp
  | cons x t ih =>
    intro a
    exact le_trans (Nat.le_max_left a x) (ih (Nat.max a x))

theorem mem_le_foldl_max (l : List Nat) : ∀ a x, x ∈ l → x ≤ l.foldl Nat.max a := by
  induction l with
  | nil => intro a x h; cases h
  | cons y t ih =>
    intro a x h
    rcases List.mem_cons.mp h with rfl | h
    · exact le_trans (Nat.le_max_right a x) (le_foldl_max t _)
    · exact ih _ x h

theorem foldl_max_mem (l : List Nat) : ∀ a, l.foldl Nat.max a = a ∨ l.foldl Nat.max a ∈ l := by
  induction l with
  | nil => intro a; left; rfl
  | cons y t ih =>
    intro a
    rcases ih (Nat.max a y) with h | h
    · have hchoice : Nat.max a y = a ∨ Nat.max a y = y := by
        rcases Nat.le_total a y with hle | hle
        · right; exact Nat.max_eq_right hle
        · left; exact Nat.max_eq_left hle
      rcases hchoice with hm | hm
      · left; simpa [hm] using h
      · right; rw [List.foldl_cons, h, hm]; exact List.mem_cons_self y t
    · right; exact List.mem_cons_of_mem _ h

theorem listMax_le_of_mem {l : List Nat} {x : Nat} (h : x ∈ l) :
    x ≤ TaskStorage.listMax l :=
  mem_le_foldl_max l 0 x h

theorem listMax_mem {l : List Nat} (h : l ≠ []) : TaskStorage.listMax l ∈ l := by
  rcases foldl_max_mem l 0 with h0 | hm
  · cases l with
    | nil => exact absurd rfl h
    | cons x t =>
      have hx : x ≤ TaskStorage.listMax (x :: t) :=
        listMax_le_of_mem (List.mem_cons_self x t)
      have hz : TaskStorage.listMax (x :: t) = 0 := h0
      have : x = 0 := by omega
      rw [hz, ← this]
      exact List.mem_cons_self x t
  · exact hm

theorem listMax_eq_of_mem_iff {l₁ l₂ : List Nat}
    (hm : ∀ x, x ∈ l₁ ↔ x ∈ l₂) (h₁ : l₁ ≠ []) :
    TaskStorage.listMax l₁ = TaskStorage.listMax l₂ := by
  have m1 := listMax_mem h₁
  have h₂ : l₂ ≠ [] := List.ne_nil_of_mem ((hm _).mp m1)
  have m2 := listMax_mem h₂
  exact le_antisymm (listMax_le_of_mem ((hm _).mp m1))
    (listMax_le_of_mem ((hm _).mpr m2))

/-! ### `formatTaskId` reads back: injectivity of task-ID formatting -/

theorem digitChar_toNat {d : Nat} (h : d < 10) : (digitChar d).toNat = 48 + d := by
  interval_cases d <;> decide

theorem foldl_natToChars :
    ∀ (fuel n a : Nat), n + 1 ≤ fuel →
      (natToChars fuel n).foldl (fun acc c => acc * 10 + (c.toNat - 48)) a
        = a * 10 ^ (natToChars fuel n).length + n := by
  intro fuel
  induction fuel with
  | zero => intro n a h; omega
  | succ fuel ih =>
    intro n a h
    by_cases hn : n < 10
    · simp only [natToChars, if_pos hn, List.foldl_cons, List.foldl_nil,
        List.length_singleton, pow_one]
      rw [digitChar_toNat hn]
      omega
    · have hdiv : n / 10 + 1 ≤ fuel := by
        have : n / 10 < n := Nat.div_lt_self (by omega) (by omega)
        omega
      simp only [natToChars, if_neg hn, List.foldl_append, List.length_append,
        List.foldl_cons, List.foldl_nil, List.length_singleton]
      rw [ih (n / 10) a hdiv, digitChar_toNat (Nat.mod_lt _ (by omega))]
      have hmod : 48 + n % 10 - 48 = n % 10 := by omega
      rw [hmod]
      set L := (natToChars fuel (n / 10)).length with hL
      calc (a * 10 ^ L + n / 10) * 10 + n % 10
          = a * (10 ^ L * 10) + (10 * (n / 10) + n % 10) := by ring
        _ = a * (10 ^ L * 10) + n := by rw [Nat.div_add_mod]
        _ = a * 10 ^ (L + 1) + n := by rw [pow_succ]

theorem readNat_replicate_zero (k : Nat) (cs : List Char) :
    readNat (List.replicate k '0' ++ cs) = readNat cs := by
  induction k with
  | zero => simp
  | succ k ih =>
    have h0 : (0 : Nat) * 10 + ('0'.toNat - 48) = 0 := by decide
    simp only [List.replicate_succ, List.cons_append, readNat, List.foldl_cons] at *
    rw [h0]
    exact ih

theorem readNat_formatTaskId (n : Nat) : readNat (formatTaskId n).data = n := by
  show readNat (List.replicate (3 - (natToChars (n + 1) n).length) '0'
        ++ natToChars (n + 1) n) = n
  rw [readNat_replicate_zero]
  have := foldl_natToChars (n + 1) n 0 (le_refl _)
  simpa [readNat] using this

theorem formatTaskId_injective : Function.Injective formatTaskId := by
  intro a b h
  have := congrArg (fun s => readNat s.data) h
  simpa [readNat_formatTaskId] using this

/-! ### Iteration-listing lemmas -/

theorem mem_rawIters {s : Storage} {p t : String} {n : Nat} :
    n ∈ TaskStorage.rawIters s p t ↔ ∃ it, ((p, t, n), it) ∈ s.iterations := by
  unfold TaskStorage.rawIters
  rw [List.mem_filterMap]
  constructor
  · rintro ⟨⟨⟨ep, et, en⟩, it⟩, he, hcond⟩
    simp only at hcond
    by_cases hc : ep = p ∧ et = t
    · rw [if_pos hc] at hcond
      obtain ⟨h1, h2⟩ := hc
      obtain rfl : en = n := Option.some.inj hcond
      subst h1; subst h2
      exact ⟨it, he⟩
    · rw [if_neg hc] at hcond
      cases hcond
  · rintro ⟨it, hmem⟩
    exact ⟨((p, t, n), it), hmem, by simp⟩

theorem load_iteration_isSome_iff {s : Storage} {p t : String} {n : Nat} :
    (TaskStorage.load_iteration s p t n).isSome ↔ ∃ it, ((p, t, n), it) ∈ s.iterations := by
  unfold TaskStorage.load_iteration alistGet
  constructor
  · intro h
    rcases hf : s.iterations.find? (fun e => decide (e.1 = (p, t, n))) with _ | ⟨k, it⟩
    · rw [hf] at h
      cases h
    · have hmem := List.mem_of_find?_eq_some hf
      have hk := List.find?_some hf
      rw [decide_eq_true_eq] at hk
      subst hk
      exact ⟨it, hmem⟩
  · rintro ⟨it, hmem⟩
    have hs : (s.iterations.find? fun e => decide (e.1 = (p, t, n))).isSome := by
      rw [List.find?_isSome]
      exact ⟨((p, t, n), it), hmem, by simp⟩
    obtain ⟨e, he⟩ := Option.isSome_iff_exists.mp hs
    rw [he]
    rfl

theorem mem_list_iterations {s : Storage} {p t : String} {n : Nat} :
    n ∈ TaskStorage.list_iterations s p t ↔ n ∈ TaskStorage.rawIters s p t :=
  (List.perm_insertionSort _ _).mem_iff

theorem list_iterations_eq_nil_iff {s : Storage} {p t : String} :
    TaskStorage.list_iterations s p t = [] ↔ TaskStorage.rawIters s p t = [] := by
  have hlen := (List.perm_insertionSort (α := Nat) (· ≤ ·)
    (TaskStorage.rawIters s p t)).length_eq
  unfold TaskStorage.list_iterations
  constructor <;> intro h
  · rw [h] at hlen
    exact List.length_eq_zero.mp hlen.symm
  · rw [h]
    rfl

theorem get_current_iteration_congr {s₁ s₂ : Storage}
    (h : s₁.iterations = s₂.iterations) (p t : String) :
    TaskStorage.get_current_iteration s₁ p t = TaskStorage.get_current_iteration s₂ p t := by
  unfold TaskStorage.get_current_iteration TaskStorage.list_iterations
    TaskStorage.rawIters TaskStorage.load_iteration alistGet
  rw [h]

theorem mem_rawIters_save {s : Storage} {pn tid : String} {it : Iteration} {n : Nat}
    (htid : it.task_id = tid) :
    n ∈ TaskStorage.rawIters (TaskStorage.save_iteration s it pn) pn tid ↔
      n = it.iteration ∨ n ∈ TaskStorage.rawIters s pn tid := by
  have hhead : ((pn, tid, it.iteration), it) = ((pn, it.task_id, it.iteration), it) := by
    rw [htid]
  rw [mem_rawIters, mem_rawIters]
  constructor
  · rintro ⟨it', hmem⟩
    unfold TaskStorage.save_iteration alistPut at hmem
    simp only [List.mem_cons] at hmem
    rcases hmem with heq | hmem
    · simp only [Prod.mk.injEq] at heq
      exact Or.inl heq.1.2.2
    · rw [List.mem_filter] at hmem
      exact Or.inr ⟨it', hmem.1⟩
  · rintro (rfl | ⟨it', hmem⟩)
    · refine ⟨it, ?_⟩
      unfold TaskStorage.save_iteration alistPut
      simp only [List.mem_cons]
      exact Or.inl hhead
    · by_cases hn : n = it.iteration
      · subst hn
        refine ⟨it, ?_⟩
        unfold TaskStorage.save_iteration alistPut
        simp only [List.mem_cons]
        exact Or.inl hhead
      · refine ⟨it', ?_⟩
        unfold TaskStorage.save_iteration alistPut
        simp only [List.mem_cons]
        refine Or.inr ?_
        rw [List.mem_filter]
        refine ⟨hmem, ?_⟩
        rw [decide_eq_true_eq]
        intro hkey
        apply hn
        have := congrArg (fun q => q.2.2) hkey
        simpa using this

/-- **C8** `get_current_iteration` returns the persisted iteration with the
maximum number for the task, and is absent exactly when no iteration file for
the task exists. -/
theorem C8_get_current_iteration_max (s : Storage) (proj tid : String) :
    ((∀ n, TaskStorage.load_iteration s proj tid n = none) →
       TaskStorage.get_current_iteration s proj tid = none) ∧
    ((∃ n, (TaskStorage.load_iteration s proj tid n).isSome) →
       (TaskStorage.get_current_iteration s proj tid).isSome) ∧
    (∀ it, TaskStorage.get_current_iteration s proj tid = some it →
       ∃ m, TaskStorage.load_iteration s proj tid m = some it ∧
         ∀ n, (TaskStorage.load_iteration s proj tid n).isSome → n ≤ m) := by
  have key : ∀ n : Nat, (TaskStorage.load_iteration s proj tid n).isSome ↔
      n ∈ TaskStorage.list_iterations s proj tid := by
    intro n
    rw [load_iteration_isSome_iff, mem_list_iterations, mem_rawIters]
  refine ⟨?_, ?_, ?_⟩
  · intro hall
    have hraw : TaskStorage.rawIters s proj tid = [] := by
      rcases hr : TaskStorage.rawIters s proj tid with _ | ⟨x, xs⟩
      · rfl
      · exfalso
        have hx : x ∈ TaskStorage.rawIters s proj tid := by
          rw [hr]; exact List.mem_cons_self x xs
        obtain ⟨it, hmem⟩ := mem_rawIters.mp hx
        have hs : (TaskStorage.load_iteration s proj tid x).isSome :=
          load_iteration_isSome_iff.mpr ⟨it, hmem⟩
        rw [hall x] at hs
        cases hs
    have hsorted : TaskStorage.list_iterations s proj tid = [] :=
      list_iterations_eq_nil_iff.mpr hraw
    simp only [TaskStorage.get_current_iteration, hsorted, List.isEmpty_nil, if_true]
  · rintro ⟨n, hn⟩
    have hmem := (key n).mp hn
    have hne : TaskStorage.list_iterations s proj tid ≠ [] := List.ne_nil_of_mem hmem
    have hmax := listMax_mem hne
    have hload := (key _).mpr hmax
    simp only [TaskStorage.get_current_iteration]
    rw [if_neg (by simpa [List.isEmpty_iff] using hne)]
    exact hload
  · intro it hit
    by_cases hemp : TaskStorage.list_iterations s proj tid = []
    · exfalso
      simp only [TaskStorage.get_current_iteration, hemp, List.isEmpty_nil, if_true] at hit
      exact Option.noConfusion hit
    · simp only [TaskStorage.get_current_iteration] at hit
      rw [if_neg (by simpa [List.isEmpty_iff] using hemp)] at hit
      exact ⟨_, hit, fun n hn => listMax_le_of_mem ((key n).mp hn)⟩

/-- Witness for C8: after iterations 1, 2, 3 of task `001` exist,
`get_current_iteration` returns iteration 3, whose number bounds every
persisted iteration number. -/
theorem C8_get_current_iteration_max_witness :
    ∃ m, TaskStorage.load_iteration threeIterStorage "demo" "001" m = some iterThree ∧
      ∀ n, (TaskStorage.load_iteration threeIterStorage "demo" "001" n).isSome → n ≤ m :=
  (C8_get_current_iteration_max threeIterStorage "demo" "001").2.2 iterThree (by rfl)

/-! ### Storage-component transparency and manager reduction lemmas -/

theorem load_project_save_task (s : Storage) (t : Task) (n : String) :
    TaskStorage.load_project (TaskStorage.save_task s t) n = TaskStorage.load_project s n := rfl

theorem load_project_save_iteration (s : Storage) (it : Iteration) (pn n : String) :
    TaskStorage.load_project (TaskStorage.save_iteration s it pn) n
      = TaskStorage.load_project s n := rfl

theorem load_project_delete (s : Storage) (pn tid n : String) :
    TaskStorage.load_project (delete_task_files s pn tid) n
      = TaskStorage.load_project s n := rfl

theorem load_task_save_project (s : Storage) (p : Project) (pn tid : String) :
    TaskStorage.load_task (TaskStorage.save_project s p) pn tid
      = TaskStorage.load_task s pn tid := rfl

theorem load_task_save_iteration (s : Storage) (it : Iteration) (pn' pn tid : String) :
    TaskStorage.load_task (TaskStorage.save_iteration s it pn') pn tid
      = TaskStorage.load_task s pn tid := rfl

theorem iterations_save_task (s : Storage) (t : Task) :
    (TaskStorage.save_task s t).iterations = s.iterations := rfl

theorem iterations_save_project (s : Storage) (p : Project) :
    (TaskStorage.save_project s p).iterations = s.iterations := rfl

theorem start_work_project (t : Task) (now : String) :
    (t.start_work now).project = t.project := by
  unfold Task.start_work; split <;> rfl

theorem start_work_id (t : Task) (now : String) :
    (t.start_work now).id = t.id := by
  unfold Task.start_work; split <;> rfl

theorem complete_work_project (t : Task) (now : String) :
    (t.complete_work now).project = t.project := by
  unfold Task.complete_work; split <;> rfl

theorem complete_work_id (t : Task) (now : String) :
    (t.complete_work now).id = t.id := by
  unfold Task.complete_work; split <;> rfl

theorem mark_name (p : Project) : p.mark_task_completed.name = p.name := rfl

theorem get_project_ok {s : Storage} {pn : String} {proj : Project}
    (hproj : TaskStorage.load_project s pn = some proj) :
    TaskManager.get_project s pn = .ok proj := by
  unfold TaskManager.get_project
  rw [hproj]

theorem get_task_ok {s : Storage} {pn tid : String} {proj : Project} {task : Task}
    (hproj : TaskStorage.load_project s pn = some proj)
    (htask : TaskStorage.load_task s pn tid = some task) :
    TaskManager.get_task s pn tid = .ok task := by
  have hpe : TaskStorage.project_exists s pn = true := by
    unfold TaskStorage.project_exists TaskStorage.load_project at *
    rw [hproj]
    rfl
  unfold TaskManager.get_task
  rw [hpe, htask]
  rfl

/-- A task save lands back on the key the manager loaded it from. -/
theorem load_task_save_self {s : Storage} {pn tid : String} (t : Task)
    (htp : t.project = pn) (hti : t.id = tid) :
    TaskStorage.load_task (TaskStorage.save_task s t) pn tid = some t := by
  unfold TaskStorage.load_task TaskStorage.save_task
  rw [htp, hti]
  exact alistGet_put_self _ _ _

/-- A project save lands back on the key the manager loaded it from. -/
theorem load_project_save_self {s : Storage} {pn : String} (p : Project)
    (hname : p.name = pn) :
    TaskStorage.load_project (TaskStorage.save_project s p) pn = some p := by
  unfold TaskStorage.load_project TaskStorage.save_project
  rw [hname]
  exact alistGet_put_self _ _ _

/-- No iteration file for the task means no current iteration. -/
theorem get_current_iteration_none {s : Storage} {pn tid : String}
    (hall : ∀ n, TaskStorage.load_iteration s pn tid n = none) :
    TaskStorage.get_current_iteration s pn tid = none := by
  have hraw : TaskStorage.rawIters s pn tid = [] := by
    rcases hr : TaskStorage.rawIters s pn tid with _ | ⟨x, xs⟩
    · rfl
    · exfalso
      have hx : x ∈ TaskStorage.rawIters s pn tid := by
        rw [hr]; exact List.mem_cons_self x xs
      obtain ⟨it, hmem⟩ := mem_rawIters.mp hx
      have hs : (TaskStorage.load_iteration s pn tid x).isSome :=
        load_iteration_isSome_iff.mpr ⟨it, hmem⟩
      rw [hall x] at hs
      cases hs
  have hsorted : TaskStorage.list_iterations s pn tid = [] :=
    list_iterations_eq_nil_iff.mpr hraw
  simp only [TaskStorage.get_current_iteration, hsorted, List.isEmpty_nil, if_true]

/-- What `get_current_iteration = some it` says: the sorted iteration list is
nonempty and `it` was loaded at its maximum. -/
theorem get_current_iteration_elim {s : Storage} {pn tid : String} {it : Iteration}
    (h : TaskStorage.get_current_iteration s pn tid = some it) :
    TaskStorage.list_iterations s pn tid ≠ [] ∧
    TaskStorage.load_iteration s pn tid
      (TaskStorage.listMax (TaskStorage.list_iterations s pn tid)) = some it := by
  by_cases hemp : TaskStorage.list_iterations s pn tid = []
  · exfalso
    simp only [TaskStorage.get_current_iteration, hemp, List.isEmpty_nil, if_true] at h
    exact Option.noConfusion h
  · simp only [TaskStorage.get_current_iteration] at h
    rw [if_neg (by simpa [List.isEmpty_iff] using hemp)] at h
    exact ⟨hemp, h⟩

/-- Saving the (completed) current iteration back under its own number keeps
it the current iteration. -/
theorem get_current_after_save {s : Storage} {pn tid now : String} {it : Iteration}
    (hcur : TaskStorage.get_current_iteration s pn tid = some it)
    (htid : it.task_id = tid)
    (hnum : it.iteration = TaskStorage.listMax (TaskStorage.list_iterations s pn tid)) :
    TaskStorage.get_current_iteration (TaskStorage.save_iteration s (it.complete now) pn) pn tid
      = some (it.complete now) := by
  obtain ⟨hne, hload⟩ := get_current_iteration_elim hcur
  have hmem_sorted : TaskStorage.listMax (TaskStorage.list_iterations s pn tid)
      ∈ TaskStorage.list_iterations s pn tid := listMax_mem hne
  have hmem_raw := mem_list_iterations.mp hmem_sorted
  have htid' : (it.complete now).task_id = tid := htid
  have hsave_mem : ∀ x,
      x ∈ TaskStorage.rawIters (TaskStorage.save_iteration s (it.complete now) pn) pn tid ↔
      x ∈ TaskStorage.rawIters s pn tid := by
    intro x
    rw [mem_rawIters_save htid']
    constructor
    · rintro (rfl | hx)
      · show it.iteration ∈ TaskStorage.rawIters s pn tid
        rw [hnum]
        exact hmem_raw
      · exact hx
    · exact Or.inr
  have hsorted_mem : ∀ x,
      x ∈ TaskStorage.list_iterations (TaskStorage.save_iteration s (it.complete now) pn) pn tid ↔
      x ∈ TaskStorage.list_iterations s pn tid := by
    intro x
    rw [mem_list_iterations, mem_list_iterations, hsave_mem]
  have hne' : TaskStorage.list_iterations
      (TaskStorage.save_iteration s (it.complete now) pn) pn tid ≠ [] :=
    List.ne_nil_of_mem ((hsorted_mem _).mpr hmem_sorted)
  have hmax' : TaskStorage.listMax (TaskStorage.list_iterations
      (TaskStorage.save_iteration s (it.complete now) pn) pn tid)
      = TaskStorage.listMax (TaskStorage.list_iterations s pn tid) :=
    listMax_eq_of_mem_iff hsorted_mem hne'
  simp only [TaskStorage.get_current_iteration]
  rw [if_neg (by simpa [List.isEmpty_iff] using hne'), hmax']
  have hkey : TaskStorage.save_iteration s (it.complete now) pn
      = { s with iterations :=
            (alistPut s.iterations
              (pn, tid, TaskStorage.listMax (TaskStorage.list_iterations s pn tid))
              (it.complete now)) } := by
    unfold TaskStorage.save_iteration
    rw [show (it.complete now).task_id = tid from htid',
        show (it.complete now).iteration
          = TaskStorage.listMax (TaskStorage.list_iterations s pn tid) from hnum]
  rw [hkey]
  exact alistGet_put_self _ _ _

/-- One-branch values of the iteration step of `complete_task`. -/
theorem iter_step_none {s : Storage} {pn tid now : String}
    (hcur : TaskStorage.get_current_iteration s pn tid = none) :
    TaskManager.complete_task_iter_step s pn tid now = s := by
  unfold TaskManager.complete_task_iter_step
  rw [hcur]

theorem iter_step_completed {s : Storage} {pn tid now : String} {it : Iteration}
    (hcur : TaskStorage.get_current_iteration s pn tid = some it)
    (hst : it.status = IterationStatus.COMPLETED) :
    TaskManager.complete_task_iter_step s pn tid now = s := by
  unfold TaskManager.complete_task_iter_step
  rw [hcur]
  show (if it.status ≠ IterationStatus.COMPLETED then
    TaskStorage.save_iteration s (it.complete now) pn else s) = s
  rw [if_neg (by simp [hst])]

theorem iter_step_open {s : Storage} {pn tid now : String} {it : Iteration}
    (hcur : TaskStorage.get_current_iteration s pn tid = some it)
    (hst : it.status ≠ IterationStatus.COMPLETED) :
    TaskManager.complete_task_iter_step s pn tid now
      = TaskStorage.save_iteration s (it.complete now) pn := by
  unfold TaskManager.complete_task_iter_step
  rw [hcur]
  show (if it.status ≠ IterationStatus.COMPLETED then
    TaskStorage.save_iteration s (it.complete now) pn else s)
      = TaskStorage.save_iteration s (it.complete now) pn
  rw [if_pos hst]

/-- The iteration step never touches the project or task components. -/
theorem iter_step_projects (s : Storage) (pn tid now : String) :
    (TaskManager.complete_task_iter_step s pn tid now).projects = s.projects := by
  unfold TaskManager.complete_task_iter_step
  rcases TaskStorage.get_current_iteration s pn tid with _ | it
  · rfl
  · show (if it.status ≠ IterationStatus.COMPLETED then
      TaskStorage.save_iteration s (it.complete now) pn else s).projects = s.projects
    split <;> rfl

theorem iter_step_tasks (s : Storage) (pn tid now : String) :
    (TaskManager.complete_task_iter_step s pn tid now).tasks = s.tasks := by
  unfold TaskManager.complete_task_iter_step
  rcases TaskStorage.get_current_iteration s pn tid with _ | it
  · rfl
  · show (if it.status ≠ IterationStatus.COMPLETED then
      TaskStorage.save_iteration s (it.complete now) pn else s).tasks = s.tasks
    split <;> rfl

/-- Full run of `complete_task` on a non-DONE task: the (attempted) completed
task and the bumped project are persisted, and the store produced is exactly
the iteration step followed by the task and project saves. -/
theorem complete_task_run {s : Storage} {pn tid : String} (now : String)
    {task : Task} {proj : Project}
    (hproj : TaskStorage.load_project s pn = some proj) (hpname : proj.name = pn)
    (htask : TaskStorage.load_task s pn tid = some task)
    (htp : task.project = pn) (hti : task.id = tid)
    (hnd : task.status ≠ TaskStatus.DONE) :
    TaskManager.complete_task s pn tid now
      = .ok (TaskStorage.save_project
          (TaskStorage.save_task (TaskManager.complete_task_iter_step s pn tid now)
            (task.complete_work now))
          proj.mark_task_completed) ∧
    TaskStorage.load_task
      (TaskStorage.save_project
        (TaskStorage.save_task (TaskManager.complete_task_iter_step s pn tid now)
          (task.complete_work now))
        proj.mark_task_completed) pn tid = some (task.complete_work now) ∧
    TaskStorage.load_project
      (TaskStorage.save_project
        (TaskStorage.save_task (TaskManager.complete_task_iter_step s pn tid now)
          (task.complete_work now))
        proj.mark_task_completed) pn = some proj.mark_task_completed := by
  refine ⟨?_, ?_, ?_⟩
  · unfold TaskManager.complete_task
    rw [get_task_ok hproj htask]
    show (if task.status ≠ TaskStatus.DONE then
        match TaskManager.get_project
          (TaskStorage.save_task (TaskManager.complete_task_iter_step s pn tid now)
            (task.complete_work now)) pn with
        | Except.error e => Except.error e
        | Except.ok project => Except.ok (TaskStorage.save_project
            (TaskStorage.save_task (TaskManager.complete_task_iter_step s pn tid now)
              (task.complete_work now)) project.mark_task_completed)
      else Except.ok (TaskManager.complete_task_iter_step s pn tid now)) = _
    rw [if_pos hnd,
      get_project_ok (show TaskStorage.load_project
        (TaskStorage.save_task (TaskManager.complete_task_iter_step s pn tid now)
          (task.complete_work now)) pn = some proj from by
        rw [load_project_save_task]
        unfold TaskStorage.load_project at *
        rw [show (TaskManager.complete_task_iter_step s pn tid now).projects = s.projects
          from iter_step_projects s pn tid now] at *
        exact hproj)]
  · rw [load_task_save_project]
    exact load_task_save_self _ ((complete_work_project _ _).trans htp)
      ((complete_work_id _ _).trans hti)
  · exact load_project_save_self _ ((mark_name proj).trans hpname)

/-- `complete_task` on an already-DONE task whose current iteration (if any)
is already completed changes nothing. -/
theorem complete_task_noop {s : Storage} {pn tid now : String} {proj : Project} {task : Task}
    (hproj : TaskStorage.load_project s pn = some proj)
    (htask : TaskStorage.load_task s pn tid = some task)
    (hd : task.status = TaskStatus.DONE)
    (hnc : ∀ it, TaskStorage.get_current_iteration s pn tid = some it →
       it.status = IterationStatus.COMPLETED) :
    TaskManager.complete_task s pn tid now = .ok s := by
  have hE : TaskManager.complete_task_iter_step s pn tid now = s := by
    obtain hcur | ⟨it, hcur⟩ := Option.eq_none_or_eq_some
      (TaskStorage.get_current_iteration s pn tid)
    · exact iter_step_none hcur
    · exact iter_step_completed hcur (hnc it hcur)
  unfold TaskManager.complete_task
  rw [get_task_ok hproj htask]
  show (if task.status ≠ TaskStatus.DONE then
      match TaskManager.get_project
        (TaskStorage.save_task (TaskManager.complete_task_iter_step s pn tid now)
          (task.complete_work now)) pn with
      | Except.error e => Except.error e
      | Except.ok project => Except.ok (TaskStorage.save_project
          (TaskStorage.save_task (TaskManager.complete_task_iter_step s pn tid now)
            (task.complete_work now)) project.mark_task_completed)
    else Except.ok (TaskManager.complete_task_iter_step s pn tid now)) = Except.ok s
  rw [if_neg (by simp [hd]), hE]

/-- Inverting a lookup in a one-entry store component. -/
theorem alistGet_singleton {α β : Type} [DecidableEq α] {k k' : α} {v w : β}
    (h : alistGet [(k, v)] k' = some w) : k = k' ∧ w = v := by
  unfold alistGet at h
  by_cases hk : k = k'
  · subst hk
    simp [List.find?] at h
    exact ⟨rfl, h.symm⟩
  · simp [List.find?, hk] at h

/-- **C1 (amended)** For every existing task whose status is IN_PROGRESS,
`complete_task` completes it: the persisted task has status DONE with its
`completed` timestamp set, the project's completed-tasks counter is
incremented by exactly 1 and persisted, and a current iteration that exists
and is not already completed is marked completed.  (As stated over every
non-DONE task the claim is false: for a TODO task `complete_work` is a no-op,
see the counterexample.) -/
theorem C1_complete_task_in_progress (s : Storage) (pn tid now : String)
    (task : Task) (proj : Project)
    (hproj : TaskStorage.load_project s pn = some proj) (hpname : proj.name = pn)
    (htask : TaskStorage.load_task s pn tid = some task)
    (htp : task.project = pn) (hti : task.id = tid)
    (hstat : task.status = TaskStatus.IN_PROGRESS)
    (hwf : ∀ n it, TaskStorage.load_iteration s pn tid n = some it →
       it.task_id = tid ∧ it.iteration = n) :
    ∃ s', TaskManager.complete_task s pn tid now = .ok s' ∧
      (∃ task', TaskStorage.load_task s' pn tid = some task' ∧
        task'.status = TaskStatus.DONE ∧ task'.completed = some now) ∧
      (∃ proj', TaskStorage.load_project s' pn = some proj' ∧
        proj'.completed_tasks = proj.completed_tasks + 1) ∧
      (∀ it, TaskStorage.get_current_iteration s pn tid = some it →
        it.status ≠ IterationStatus.COMPLETED →
        TaskStorage.get_current_iteration s' pn tid = some (it.complete now)) := by
  have hnd : task.status ≠ TaskStatus.DONE := by rw [hstat]; decide
  obtain ⟨hrun, ht', hp'⟩ := complete_task_run now hproj hpname htask htp hti hnd
  refine ⟨_, hrun, ⟨task.complete_work now, ht', ?_, ?_⟩,
    ⟨proj.mark_task_completed, hp', rfl⟩, ?_⟩
  · simp [Task.complete_work, hstat]
  · simp [Task.complete_work, hstat]
  · intro it hcur hne
    obtain ⟨-, hload⟩ := get_current_iteration_elim hcur
    obtain ⟨htid, hitnum⟩ := hwf _ _ hload
    have hiters : (TaskStorage.save_project
        (TaskStorage.save_task (TaskManager.complete_task_iter_step s pn tid now)
          (task.complete_work now)) proj.mark_task_completed).iterations
        = (TaskStorage.save_iteration s (it.complete now) pn).iterations := by
      rw [iterations_save_project, iterations_save_task, iter_step_open hcur hne]
    rw [get_current_iteration_congr hiters]
    exact get_current_after_save hcur htid hitnum

/-- Witness for C1 on the concrete store: IN_PROGRESS task `001` with open
iteration 1. -/
theorem C1_complete_task_in_progress_witness :
    ∃ s', TaskManager.complete_task ipStorage "demo" "001" "t5" = .ok s' ∧
      (∃ task', TaskStorage.load_task s' "demo" "001" = some task' ∧
        task'.status = TaskStatus.DONE ∧ task'.completed = some "t5") ∧
      (∃ proj', TaskStorage.load_project s' "demo" = some proj' ∧
        proj'.completed_tasks = demoProject1.completed_tasks + 1) ∧
      (∀ it, TaskStorage.get_current_iteration ipStorage "demo" "001" = some it →
        it.status ≠ IterationStatus.COMPLETED →
        TaskStorage.get_current_iteration s' "demo" "001" = some (it.complete "t5")) :=
  C1_complete_task_in_progress ipStorage "demo" "001" "t5" ipTask demoProject1
    rfl rfl rfl rfl rfl rfl
    (fun n it h => by
      obtain ⟨hk, hv⟩ := alistGet_singleton
        (show alistGet [((("demo", "001", 1) : String × String × Nat), ipIter)]
          ("demo", "001", n) = some it from h)
      obtain rfl : (1 : Nat) = n := by
        have h3 := congrArg (fun q : String × String × Nat => q.2.2) hk
        simpa using h3
      subst hv
      exact ⟨rfl, rfl⟩)

/-- Counterexample to C1 as stated: `complete_task` on the TODO task `001`
leaves the persisted task TODO with a null `completed`, while still
incrementing the project's completed-tasks counter. -/
theorem C1_complete_task_counterexample :
    ∃ s', TaskManager.complete_task todoStorage "demo" "001" "t1" = .ok s' ∧
      (TaskStorage.load_task s' "demo" "001").map Task.status = some TaskStatus.TODO ∧
      (TaskStorage.load_task s' "demo" "001").map Task.completed = some none ∧
      (TaskStorage.load_project s' "demo").map Project.completed_tasks = some 1 :=
  ⟨_, rfl, rfl, rfl, rfl⟩

/-- **C2 (amended)** For every existing task whose status is IN_PROGRESS, two
successive `complete_task` calls increment the project's completed-tasks
counter by exactly 1: the second call is a complete no-op.  (As stated over
every existing task the claim is false: on a TODO task each call increments
the counter, see the counterexample.) -/
theorem C2_complete_task_twice (s : Storage) (pn tid now₁ now₂ : String)
    (task : Task) (proj : Project)
    (hproj : TaskStorage.load_project s pn = some proj) (hpname : proj.name = pn)
    (htask : TaskStorage.load_task s pn tid = some task)
    (htp : task.project = pn) (hti : task.id = tid)
    (hstat : task.status = TaskStatus.IN_PROGRESS)
    (hwf : ∀ n it, TaskStorage.load_iteration s pn tid n = some it →
       it.task_id = tid ∧ it.iteration = n) :
    ∃ s₁, TaskManager.complete_task s pn tid now₁ = .ok s₁ ∧
      TaskManager.complete_task s₁ pn tid now₂ = .ok s₁ ∧
      ∃ proj', TaskStorage.load_project s₁ pn = some proj' ∧
        proj'.completed_tasks = proj.completed_tasks + 1 := by
  have hnd : task.status ≠ TaskStatus.DONE := by rw [hstat]; decide
  obtain ⟨hrun, ht', hp'⟩ := complete_task_run now₁ hproj hpname htask htp hti hnd
  have hd1 : (task.complete_work now₁).status = TaskStatus.DONE := by
    simp [Task.complete_work, hstat]
  have hiters : (TaskStorage.save_project
      (TaskStorage.save_task (TaskManager.complete_task_iter_step s pn tid now₁)
        (task.complete_work now₁)) proj.mark_task_completed).iterations
      = (TaskManager.complete_task_iter_step s pn tid now₁).iterations := by
    rw [iterations_save_project, iterations_save_task]
  refine ⟨_, hrun, ?_, proj.mark_task_completed, hp', rfl⟩
  refine complete_task_noop hp' ht' hd1 ?_
  intro it' h1
  obtain hcur | ⟨it, hcur⟩ := Option.eq_none_or_eq_some
    (TaskStorage.get_current_iteration s pn tid)
  · rw [get_current_iteration_congr
      (hiters.trans (congrArg Storage.iterations (iter_step_none hcur))), hcur] at h1
    exact Option.noConfusion h1
  · by_cases hst : it.status = IterationStatus.COMPLETED
    · rw [get_current_iteration_congr
        (hiters.trans (congrArg Storage.iterations (iter_step_completed hcur hst))),
        hcur] at h1
      obtain rfl := Option.some.inj h1
      exact hst
    · rw [get_current_iteration_congr
        (hiters.trans (congrArg Storage.iterations (iter_step_open hcur hst)))] at h1
      obtain ⟨-, hload⟩ := get_current_iteration_elim hcur
      obtain ⟨htid, hitnum⟩ := hwf _ _ hload
      rw [get_current_after_save hcur htid hitnum] at h1
      obtain rfl := Option.some.inj h1
      rfl

/-- Witness for C2 on the concrete store: IN_PROGRESS task `001` with open
iteration 1, completed twice. -/
theorem C2_complete_task_twice_witness :
    ∃ s₁, TaskManager.complete_task ipStorage "demo" "001" "t5" = .ok s₁ ∧
      TaskManager.complete_task s₁ "demo" "001" "t6" = .ok s₁ ∧
      ∃ proj', TaskStorage.load_project s₁ "demo" = some proj' ∧
        proj'.completed_tasks = demoProject1.completed_tasks + 1 :=
  C2_complete_task_twice ipStorage "demo" "001" "t5" "t6" ipTask demoProject1
    rfl rfl rfl rfl rfl rfl
    (fun n it h => by
      obtain ⟨hk, hv⟩ := alistGet_singleton
        (show alistGet [((("demo", "001", 1) : String × String × Nat), ipIter)]
          ("demo", "001", n) = some it from h)
      obtain rfl : (1 : Nat) = n := by
        have h3 := congrArg (fun q : String × String × Nat => q.2.2) hk
        simpa using h3
      subst hv
      exact ⟨rfl, rfl⟩)

/-- Counterexample to C2 as stated: two `complete_task` calls on the TODO
task `001` increment the counter twice (to 2), not once. -/
theorem C2_complete_task_twice_counterexample :
    ∃ s₁ s₂, TaskManager.complete_task todoStorage "demo" "001" "t1" = .ok s₁ ∧
      TaskManager.complete_task s₁ "demo" "001" "t2" = .ok s₂ ∧
      (TaskStorage.load_project s₂ "demo").map Project.completed_tasks = some 2 :=
  ⟨_, _, rfl, rfl, rfl⟩

/-- Reduction of `set_task_status` past the task lookup and the status
parse, to the three-way transition dispatch. -/
theorem set_task_status_reduce {s : Storage} {pn tid status now : String}
    {proj : Project} {task : Task} {st : TaskStatus}
    (hproj : TaskStorage.load_project s pn = some proj)
    (htask : TaskStorage.load_task s pn tid = some task)
    (hparse : TaskStatus.ofString? status = some st) :
    TaskManager.set_task_status s pn tid status now =
      (if st = TaskStatus.IN_PROGRESS ∧ task.started = none then
        Except.ok (TaskStorage.save_task s (task.start_work now))
      else if st = TaskStatus.DONE ∧ task.completed = none then
        match TaskManager.get_project s pn with
        | Except.error e => Except.error e
        | Except.ok project => Except.ok (TaskStorage.save_task
            (TaskStorage.save_project s project.mark_task_completed)
            (task.complete_work now))
      else Except.ok (TaskStorage.save_task s { task with status := st })) := by
  unfold TaskManager.set_task_status
  rw [get_task_ok hproj htask, hparse]

/-- **C3 (amended)** `set_task_status`: a DONE target triggers
`complete_work` and increments the persisted completed-tasks counter only
when the task's `completed` timestamp is null; an IN_PROGRESS target triggers
`start_work` only when `started` is null; every other case (including DONE
with a non-null `completed`) is a direct field assignment with no effect on
the project component or the task's timestamps. -/
theorem C3_set_task_status_transitions (s : Storage) (pn tid status now : String)
    (task : Task) (proj : Project) (st : TaskStatus)
    (hproj : TaskStorage.load_project s pn = some proj) (hpname : proj.name = pn)
    (htask : TaskStorage.load_task s pn tid = some task)
    (htp : task.project = pn) (hti : task.id = tid)
    (hparse : TaskStatus.ofString? status = some st) :
    (st = TaskStatus.DONE → task.completed = none →
      ∃ s', TaskManager.set_task_status s pn tid status now = .ok s' ∧
        TaskStorage.load_task s' pn tid = some (task.complete_work now) ∧
        ∃ proj', TaskStorage.load_project s' pn = some proj' ∧
          proj'.completed_tasks = proj.completed_tasks + 1) ∧
    (st = TaskStatus.IN_PROGRESS → task.started = none →
      ∃ s', TaskManager.set_task_status s pn tid status now = .ok s' ∧
        TaskStorage.load_task s' pn tid = some (task.start_work now) ∧
        s'.projects = s.projects) ∧
    (¬(st = TaskStatus.IN_PROGRESS ∧ task.started = none) →
     ¬(st = TaskStatus.DONE ∧ task.completed = none) →
      ∃ s', TaskManager.set_task_status s pn tid status now = .ok s' ∧
        TaskStorage.load_task s' pn tid = some { task with status := st } ∧
        s'.projects = s.projects ∧
        ({ task with status := st } : Task).started = task.started ∧
        ({ task with status := st } : Task).completed = task.completed) := by
  refine ⟨?_, ?_, ?_⟩
  · intro hdone hc
    subst hdone
    rw [set_task_status_reduce hproj htask hparse,
      if_neg (by rintro ⟨h, -⟩; exact TaskStatus.noConfusion h),
      if_pos ⟨rfl, hc⟩, get_project_ok hproj]
    refine ⟨_, rfl, ?_, proj.mark_task_completed, ?_, rfl⟩
    · exact load_task_save_self _ ((complete_work_project _ _).trans htp)
        ((complete_work_id _ _).trans hti)
    · rw [load_project_save_task]
      exact load_project_save_self _ ((mark_name proj).trans hpname)
  · intro hip hs
    subst hip
    rw [set_task_status_reduce hproj htask hparse, if_pos ⟨rfl, hs⟩]
    exact ⟨_, rfl, load_task_save_self _ ((start_work_project _ _).trans htp)
      ((start_work_id _ _).trans hti), rfl⟩
  · intro hn1 hn2
    rw [set_task_status_reduce hproj htask hparse, if_neg hn1, if_neg hn2]
    exact ⟨_, rfl, load_task_save_self _ htp hti, rfl, rfl, rfl⟩

/-- Witness for C3 at the reopened task `001` (IN_PROGRESS, `completed`
already set): the DONE target goes through the direct-assignment branch. -/
theorem C3_set_task_status_transitions_witness :
    ¬(TaskStatus.DONE = TaskStatus.IN_PROGRESS ∧ reopenedTask.started = none) ∧
    ¬(TaskStatus.DONE = TaskStatus.DONE ∧ reopenedTask.completed = none) ∧
    (∃ s', TaskManager.set_task_status reopenedStorage "demo" "001" "DONE" "t2" = .ok s' ∧
      TaskStorage.load_task s' "demo" "001" = some { reopenedTask with status := TaskStatus.DONE } ∧
      s'.projects = reopenedStorage.projects ∧
      ({ reopenedTask with status := TaskStatus.DONE } : Task).started = reopenedTask.started ∧
      ({ reopenedTask with status := TaskStatus.DONE } : Task).completed = reopenedTask.completed) :=
  ⟨by decide, by decide,
    (C3_set_task_status_transitions reopenedStorage "demo" "001" "DONE" "t2"
      reopenedTask demoProject1 TaskStatus.DONE rfl rfl rfl rfl rfl (by decide)).2.2
      (by decide) (by decide)⟩

/-- Counterexample to C3 as stated: on the reopened task (non-null
`completed`) the DONE target is a plain field assignment — the task is set to
DONE but the completed-tasks counter stays 0 and `complete_work` never runs. -/
theorem C3_set_task_status_counterexample :
    ∃ s', TaskManager.set_task_status reopenedStorage "demo" "001" "DONE" "t2" = .ok s' ∧
      (TaskStorage.load_task s' "demo" "001").map Task.status = some TaskStatus.DONE ∧
      (TaskStorage.load_project s' "demo").map Project.completed_tasks = some 0 :=
  ⟨_, rfl, rfl, rfl⟩

/-- **C4** On a TODO task with null timestamps, `set_task_status` to DONE
leaves the persisted task TODO with a null `completed` (since `complete_work`
only transitions from IN_PROGRESS) yet still increments and persists the
project's completed-tasks counter. -/
theorem C4_set_status_done_on_todo (s : Storage) (pn tid now : String)
    (task : Task) (proj : Project)
    (hproj : TaskStorage.load_project s pn = some proj) (hpname : proj.name = pn)
    (htask : TaskStorage.load_task s pn tid = some task)
    (htp : task.project = pn) (hti : task.id = tid)
    (hstat : task.status = TaskStatus.TODO)
    (hstarted : task.started = none) (hcompleted : task.completed = none) :
    ∃ s', TaskManager.set_task_status s pn tid "DONE" now = .ok s' ∧
      (∃ task', TaskStorage.load_task s' pn tid = some task' ∧
        task'.status = TaskStatus.TODO ∧ task'.completed = none) ∧
      (∃ proj', TaskStorage.load_project s' pn = some proj' ∧
        proj'.completed_tasks = proj.completed_tasks + 1) := by
  have hparse : TaskStatus.ofString? "DONE" = some TaskStatus.DONE := by decide
  have hcw : task.complete_work now = task := by
    unfold Task.complete_work
    rw [hstat, if_neg (by decide)]
  rw [set_task_status_reduce hproj htask hparse,
    if_neg (by rintro ⟨h, -⟩; exact TaskStatus.noConfusion h),
    if_pos ⟨rfl, hcompleted⟩, get_project_ok hproj]
  refine ⟨_, rfl, ⟨task, ?_, hstat, hcompleted⟩, ⟨proj.mark_task_completed, ?_, rfl⟩⟩
  · rw [hcw]
    exact load_task_save_self _ htp hti
  · rw [load_project_save_task]
    exact load_project_save_self _ ((mark_name proj).trans hpname)

/-- Witness for C4 on the TODO task `001`. -/
theorem C4_set_status_done_on_todo_witness :
    ∃ s', TaskManager.set_task_status todoStorage "demo" "001" "DONE" "t1" = .ok s' ∧
      (∃ task', TaskStorage.load_task s' "demo" "001" = some task' ∧
        task'.status = TaskStatus.TODO ∧ task'.completed = none) ∧
      (∃ proj', TaskStorage.load_project s' "demo" = some proj' ∧
        proj'.completed_tasks = demoProject1.completed_tasks + 1) :=
  C4_set_status_done_on_todo todoStorage "demo" "001" "t1" todoTask demoProject1
    rfl rfl rfl rfl rfl rfl rfl rfl

/-- **C5** `set_task_status` with a string outside the task status
enumeration raises the validation error whose message embeds the Python repr
of the four legal values; the operation produces no new store (the error is
raised before any file write). -/
theorem C5_set_task_status_invalid (s : Storage) (pn tid status now : String)
    (task : Task) (proj : Project)
    (hproj : TaskStorage.load_project s pn = some proj)
    (htask : TaskStorage.load_task s pn tid = some task)
    (hbad : TaskStatus.ofString? status = none) :
    TaskManager.set_task_status s pn tid status now =
      .error (.taskManagerError ("Invalid status '" ++ status ++
        "'. Valid options: " ++ taskStatusValuesRepr)) ∧
    (∀ st : TaskStatus, st.value.data <:+: taskStatusValuesRepr.data) := by
  constructor
  · unfold TaskManager.set_task_status
    rw [get_task_ok hproj htask, hbad]
  · intro st
    cases st <;> decide

/-- Witness for C5 with the status string `"BOGUS"`. -/
theorem C5_set_task_status_invalid_witness :
    TaskManager.set_task_status todoStorage "demo" "001" "BOGUS" "t1" =
      .error (.taskManagerError ("Invalid status '" ++ "BOGUS" ++
        "'. Valid options: " ++ taskStatusValuesRepr)) ∧
    (∀ st : TaskStatus, st.value.data <:+: taskStatusValuesRepr.data) :=
  C5_set_task_status_invalid todoStorage "demo" "001" "BOGUS" "t1"
    todoTask demoProject1 rfl rfl (by decide)

/-- **C7** `set_task_status` to IN_PROGRESS twice on a TODO task stamps
`started` exactly once: the first call transitions and stamps, the second
call is a direct assignment leaving the timestamp untouched. -/
theorem C7_set_status_in_progress_twice (s : Storage) (pn tid now₁ now₂ : String)
    (task : Task) (proj : Project)
    (hproj : TaskStorage.load_project s pn = some proj)
    (htask : TaskStorage.load_task s pn tid = some task)
    (htp : task.project = pn) (hti : task.id = tid)
    (hstat : task.status = TaskStatus.TODO) (hstarted : task.started = none) :
    ∃ s₁ s₂ task₁ task₂,
      TaskManager.set_task_status s pn tid "IN_PROGRESS" now₁ = .ok s₁ ∧
      TaskStorage.load_task s₁ pn tid = some task₁ ∧
      task₁.status = TaskStatus.IN_PROGRESS ∧ task₁.started = some now₁ ∧
      TaskManager.set_task_status s₁ pn tid "IN_PROGRESS" now₂ = .ok s₂ ∧
      TaskStorage.load_task s₂ pn tid = some task₂ ∧
      task₂.started = some now₁ ∧ task₂.status = TaskStatus.IN_PROGRESS := by
  have hparse : TaskStatus.ofString? "IN_PROGRESS" = some TaskStatus.IN_PROGRESS := by
    decide
  have hsw : task.start_work now₁
      = { task with status := TaskStatus.IN_PROGRESS, started := some now₁ } := by
    unfold Task.start_work
    rw [if_pos hstat]
  have h1 : TaskManager.set_task_status s pn tid "IN_PROGRESS" now₁
      = .ok (TaskStorage.save_task s (task.start_work now₁)) := by
    rw [set_task_status_reduce hproj htask hparse, if_pos ⟨rfl, hstarted⟩]
  have hload1 : TaskStorage.load_task (TaskStorage.save_task s (task.start_work now₁)) pn tid
      = some (task.start_work now₁) :=
    load_task_save_self _ ((start_work_project _ _).trans htp)
      ((start_work_id _ _).trans hti)
  have hproj1 : TaskStorage.load_project (TaskStorage.save_task s (task.start_work now₁)) pn
      = some proj := hproj
  have h2 : TaskManager.set_task_status (TaskStorage.save_task s (task.start_work now₁))
        pn tid "IN_PROGRESS" now₂
      = .ok (TaskStorage.save_task (TaskStorage.save_task s (task.start_work now₁))
          { task.start_work now₁ with status := TaskStatus.IN_PROGRESS }) := by
    rw [set_task_status_reduce hproj1 hload1 hparse]
    rw [if_neg (by
      rintro ⟨-, hs⟩
      rw [hsw] at hs
      exact Option.noConfusion hs)]
    rw [if_neg (by rintro ⟨h, -⟩; exact TaskStatus.noConfusion h)]
  refine ⟨_, _, task.start_work now₁,
    { task.start_work now₁ with status := TaskStatus.IN_PROGRESS },
    h1, hload1, ?_, ?_, h2, ?_, ?_, rfl⟩
  · rw [hsw]
  · rw [hsw]
  · exact load_task_save_self _ ((start_work_project _ _).trans htp)
      ((start_work_id _ _).trans hti)
  · rw [show ({ task.start_work now₁ with status := TaskStatus.IN_PROGRESS } : Task).started
      = (task.start_work now₁).started from rfl, hsw]

/-- Witness for C7 on the TODO task `001`. -/
theorem C7_set_status_in_progress_twice_witness :
    ∃ s₁ s₂ task₁ task₂,
      TaskManager.set_task_status todoStorage "demo" "001" "IN_PROGRESS" "t1" = .ok s₁ ∧
      TaskStorage.load_task s₁ "demo" "001" = some task₁ ∧
      task₁.status = TaskStatus.IN_PROGRESS ∧ task₁.started = some "t1" ∧
      TaskManager.set_task_status s₁ "demo" "001" "IN_PROGRESS" "t2" = .ok s₂ ∧
      TaskStorage.load_task s₂ "demo" "001" = some task₂ ∧
      task₂.started = some "t1" ∧ task₂.status = TaskStatus.IN_PROGRESS :=
  C7_set_status_in_progress_twice todoStorage "demo" "001" "t1" "t2"
    todoTask demoProject1 rfl rfl rfl rfl rfl rfl

/-- **C10** When no iteration file exists for a task — in particular when the
project or the task themselves do not exist — the five current-iteration
operations raise `IterationNotFoundError` (never a project or task lookup
error), and the error is raised before any file write. -/
theorem C10_iteration_ops_require_iteration (s : Storage)
    (pn tid note summary feedback steps now : String)
    (h : ∀ n, TaskStorage.load_iteration s pn tid n = none) :
    TaskManager.add_iteration_note s pn tid note
      = .error (.iterationNotFound ("No active iteration found for task '" ++ tid ++ "'")) ∧
    TaskManager.set_iteration_summary s pn tid summary
      = .error (.iterationNotFound ("No active iteration found for task '" ++ tid ++ "'")) ∧
    TaskManager.add_user_feedback s pn tid feedback
      = .error (.iterationNotFound ("No active iteration found for task '" ++ tid ++ "'")) ∧
    TaskManager.set_next_steps s pn tid steps
      = .error (.iterationNotFound ("No active iteration found for task '" ++ tid ++ "'")) ∧
    TaskManager.complete_iteration s pn tid now
      = .error (.iterationNotFound ("No active iteration found for task '" ++ tid ++ "'")) := by
  have hcur := get_current_iteration_none h
  have hw : ∀ f, TaskManager.withCurrentIteration s pn tid f
      = .error (.iterationNotFound ("No active iteration found for task '" ++ tid ++ "'")) := by
    intro f
    unfold TaskManager.withCurrentIteration
    rw [hcur]
  exact ⟨hw _, hw _, hw _, hw _, hw _⟩

/-- Witness for C10 on a store where neither project `ghost` nor task `042`
exist at all. -/
theorem C10_iteration_ops_require_iteration_witness :
    TaskManager.add_iteration_note freshStorage "ghost" "042" "n"
      = .error (.iterationNotFound ("No active iteration found for task '" ++ "042" ++ "'")) ∧
    TaskManager.set_iteration_summary freshStorage "ghost" "042" "s"
      = .error (.iterationNotFound ("No active iteration found for task '" ++ "042" ++ "'")) ∧
    TaskManager.add_user_feedback freshStorage "ghost" "042" "f"
      = .error (.iterationNotFound ("No active iteration found for task '" ++ "042" ++ "'")) ∧
    TaskManager.set_next_steps freshStorage "ghost" "042" "x"
      = .error (.iterationNotFound ("No active iteration found for task '" ++ "042" ++ "'")) ∧
    TaskManager.complete_iteration freshStorage "ghost" "042" "t"
      = .error (.iterationNotFound ("No active iteration found for task '" ++ "042" ++ "'")) :=
  C10_iteration_ops_require_iteration freshStorage "ghost" "042" "n" "s" "f" "x" "t"
    (fun _ => rfl)

/-- One `create_task` call on an existing project: the returned task carries
the zero-padded current counter as its ID, and the project is persisted with
both counters bumped. -/
theorem create_task_ok {s : Storage} {pn : String} {p : Project}
    (hload : TaskStorage.load_project s pn = some p) (hname : p.name = pn)
    (title description notes now : String) :
    ∃ s₁, TaskManager.create_task s pn title description notes now
        = .ok (s₁, { id := formatTaskId p.next_task_id, title := title, project := pn,
                     description := description, notes := notes, created := some now }) ∧
      TaskStorage.load_project s₁ pn
        = some { p with next_task_id := p.next_task_id + 1,
                        total_tasks := p.total_tasks + 1 } ∧
      s₁.iterations = s.iterations := by
  refine ⟨TaskStorage.save_task
      (TaskStorage.save_project s
        { p with next_task_id := p.next_task_id + 1, total_tasks := p.total_tasks + 1 })
      { id := formatTaskId p.next_task_id, title := title, project := pn,
        description := description, notes := notes, created := some now }, ?_, ?_, rfl⟩
  · unfold TaskManager.create_task
    rw [get_project_ok hload]
    rfl
  · rw [load_project_save_task]
    exact load_project_save_self _ hname

theorem range_map_cons (k c : Nat) :
    formatTaskId k :: (List.range c).map (fun i => formatTaskId (k + 1 + i))
      = (List.range (c + 1)).map (fun i => formatTaskId (k + i)) := by
  rw [List.range_succ_eq_map, List.map_cons, List.map_map]
  congr 1
  apply List.map_congr_left
  intro i _
  show formatTaskId (k + 1 + i) = formatTaskId (k + Nat.succ i)
  congr 1
  omega

/-- Running any create/delete interleaving on one project: the IDs returned
by the creates are the consecutive zero-padded counter values, and the
persisted counters advance by exactly one per create. -/
theorem runOps_spec (pn : String) (ops : List TFOp) :
    ∀ (s : Storage) (p : Project),
      TaskStorage.load_project s pn = some p → p.name = pn →
      (runOps s pn ops).2
        = (List.range (countCreates ops)).map (fun i => formatTaskId (p.next_task_id + i)) ∧
      ∃ pf, TaskStorage.load_project (runOps s pn ops).1 pn = some pf ∧ pf.name = pn ∧
        pf.next_task_id = p.next_task_id + countCreates ops ∧
        pf.total_tasks = p.total_tasks + countCreates ops := by
  induction ops with
  | nil =>
    intro s p hload hname
    exact ⟨rfl, p, hload, hname, rfl, rfl⟩
  | cons op rest ih =>
    intro s p hload hname
    cases op with
    | createTask title description notes now =>
      obtain ⟨s₁, hct, hp1, -⟩ := create_task_ok hload hname title description notes now
      have hrun : runOps s pn (TFOp.createTask title description notes now :: rest)
          = ((runOps s₁ pn rest).1, formatTaskId p.next_task_id :: (runOps s₁ pn rest).2) := by
        simp only [runOps]
        rw [hct]
      obtain ⟨hids, pf, hpf, hpfname, hpfnext, hpftotal⟩ := ih s₁ _ hp1 hname
      constructor
      · rw [hrun]
        show formatTaskId p.next_task_id :: (runOps s₁ pn rest).2 = _
        rw [hids,
          show countCreates (TFOp.createTask title description notes now :: rest)
            = countCreates rest + 1 from rfl]
        exact range_map_cons p.next_task_id (countCreates rest)
      · rw [hrun]
        have h1 : pf.next_task_id = p.next_task_id + 1 + countCreates rest := hpfnext
        have h2 : pf.total_tasks = p.total_tasks + 1 + countCreates rest := hpftotal
        refine ⟨pf, hpf, hpfname, ?_, ?_⟩
        · show pf.next_task_id
            = p.next_task_id + countCreates (TFOp.createTask title description notes now :: rest)
          rw [show countCreates (TFOp.createTask title description notes now :: rest)
            = countCreates rest + 1 from rfl]
          omega
        · show pf.total_tasks
            = p.total_tasks + countCreates (TFOp.createTask title description notes now :: rest)
          rw [show countCreates (TFOp.createTask title description notes now :: rest)
            = countCreates rest + 1 from rfl]
          omega
    | deleteTask tid' =>
      have hload' : TaskStorage.load_project (delete_task_files s pn tid') pn = some p := hload
      obtain ⟨hids, pf, hpf, hpfname, hnext, htotal⟩ := ih _ p hload' hname
      exact ⟨hids, pf, hpf, hpfname, hnext, htotal⟩

/-- **C6** For any interleaving of `create_task` calls and task-file
deletions on one fresh project, the IDs returned by the creates are
`formatTaskId 1, formatTaskId 2, …` (that is `"001"`, `"002"`, …) in order
and pairwise distinct; `next_task_id` and `total_tasks` advance by exactly 1
per create (never decreasing on delete), and a single create on any project
state returns the zero-padded current counter and bumps both counters by 1. -/
theorem C6_create_task_id_monotonicity (ops : List TFOp) (s : Storage) (pn : String)
    (p : Project)
    (hload : TaskStorage.load_project s pn = some p) (hname : p.name = pn)
    (hfresh : p.next_task_id = 1) :
    (runOps s pn ops).2
      = (List.range (countCreates ops)).map (fun i => formatTaskId (1 + i)) ∧
    (runOps s pn ops).2.Nodup ∧
    (∃ pf, TaskStorage.load_project (runOps s pn ops).1 pn = some pf ∧
      pf.next_task_id = 1 + countCreates ops ∧
      pf.total_tasks = p.total_tasks + countCreates ops) ∧
    (∀ (s₀ : Storage) (p₀ : Project) (title description notes now : String),
      TaskStorage.load_project s₀ pn = some p₀ → p₀.name = pn →
      ∃ s₁ task, TaskManager.create_task s₀ pn title description notes now
          = .ok (s₁, task) ∧
        task.id = formatTaskId p₀.next_task_id ∧
        ∃ p₁, TaskStorage.load_project s₁ pn = some p₁ ∧
          p₁.next_task_id = p₀.next_task_id + 1 ∧
          p₁.total_tasks = p₀.total_tasks + 1) := by
  obtain ⟨hids, pf, hpf, -, hnext, htotal⟩ := runOps_spec pn ops s p hload hname
  rw [hfresh] at hids hnext
  refine ⟨hids, ?_, ⟨pf, hpf, hnext, htotal⟩, ?_⟩
  · rw [hids]
    refine (List.nodup_range _).map ?_
    intro a b hab
    have hinj := formatTaskId_injective hab
    omega
  · intro s₀ p₀ title description notes now h₀ hn₀
    obtain ⟨s₁, hct, hp1, -⟩ := create_task_ok h₀ hn₀ title description notes now
    exact ⟨s₁, _, hct, rfl, _, hp1, rfl, rfl⟩

/-- Witness for C6: two creates with a deletion of task `001` in between on a
fresh project. -/
theorem C6_create_task_id_monotonicity_witness :
    (runOps freshStorage "demo" demoOps).2
      = (List.range (countCreates demoOps)).map (fun i => formatTaskId (1 + i)) ∧
    (runOps freshStorage "demo" demoOps).2.Nodup ∧
    (∃ pf, TaskStorage.load_project (runOps freshStorage "demo" demoOps).1 "demo" = some pf ∧
      pf.next_task_id = 1 + countCreates demoOps ∧
      pf.total_tasks = freshProject.total_tasks + countCreates demoOps) ∧
    (∀ (s₀ : Storage) (p₀ : Project) (title description notes now : String),
      TaskStorage.load_project s₀ "demo" = some p₀ → p₀.name = "demo" →
      ∃ s₁ task, TaskManager.create_task s₀ "demo" title description notes now
          = .ok (s₁, task) ∧
        task.id = formatTaskId p₀.next_task_id ∧
        ∃ p₁, TaskStorage.load_project s₁ "demo" = some p₁ ∧
          p₁.next_task_id = p₀.next_task_id + 1 ∧
          p₁.total_tasks = p₀.total_tasks + 1) :=
  C6_create_task_id_monotonicity demoOps freshStorage "demo" freshProject rfl rfl rfl

/-- **C9** For each entity kind, `from_dict (to_dict x)` reproduces `x`
field-for-field, for every value whose construction-time timestamp is set (as
`__post_init__` guarantees); enum fields pass through their string value and
null optional fields stay null. -/
theorem C9_roundtrip (t : Task) (it : Iteration) (p : Project) (now : String)
    (ht : t.created ≠ none) (hit : it.started ≠ none) (hp : p.created ≠ none) :
    Task.from_dict t.to_dict now = some t ∧
    Iteration.from_dict it.to_dict now = some it ∧
    Project.from_dict p.to_dict now = some p := by
  refine ⟨?_, ?_, ?_⟩
  · obtain ⟨tid, ttl, tpr, tds, tns, tst, tcr, tsd, tcp, tci, tti⟩ := t
    obtain ⟨c, rfl⟩ : ∃ c, tcr = some c := by
      rcases tcr with _ | c
      · exact absurd rfl ht
      · exact ⟨c, rfl⟩
    cases tst <;> rcases tsd with _ | _ <;> rcases tcp with _ | _ <;> rfl
  · obtain ⟨itk, itn, ist, isd, icp, ino, ism, iuf, ins⟩ := it
    obtain ⟨c, rfl⟩ : ∃ c, isd = some c := by
      rcases isd with _ | c
      · exact absurd rfl hit
      · exact ⟨c, rfl⟩
    cases ist <;> rcases icp with _ | _ <;> rfl
  · obtain ⟨pnm, pds, pst, pcr, pnx, ptt, pct⟩ := p
    obtain ⟨c, rfl⟩ : ∃ c, pcr = some c := by
      rcases pcr with _ | c
      · exact absurd rfl hp
      · exact ⟨c, rfl⟩
    cases pst <;> rfl

/-- Witness for C9 on concrete entities with both null and non-null optional
fields. -/
theorem C9_roundtrip_witness :
    todoTask.created ≠ none ∧ wIter.started ≠ none ∧ freshProject.created ≠ none ∧
    (Task.from_dict todoTask.to_dict "t9" = some todoTask ∧
     Iteration.from_dict wIter.to_dict "t9" = some wIter ∧
     Project.from_dict freshProject.to_dict "t9" = some freshProject) :=
  ⟨by decide, by decide, by decide,
    C9_roundtrip todoTask wIter freshProject "t9" (by decide) (by decide) (by decide)⟩

end Taskflow
